import Mathlib

/-
Shallow embedding of src/S3VectorsQuery.py (class S3VectorsQuery).

Remote services (boto3 clients `s3vectors` and `bedrock-runtime`) are modelled
as oracle functions passed to each method; a call that raises is an oracle
returning `Except.error msg` where `msg` models Python's `str(e)`.  Printing
is modelled by returning the list of printed lines.  Embedding vectors and
distance scores are carried opaquely by this code (never computed or compared
locally), so they are modelled as `List Int` / `Int`.
-/

/-- Python's substring containment `needle in hay`, on explicit char lists:
`listStartsWith n h` holds when `n` is an initial segment of `h`. -/
def listStartsWith : List Char → List Char → Bool
  | [], _ => true
  | _ :: _, [] => false
  | n :: ns, h :: hs => n == h && listStartsWith ns hs

/-- `listContainsSub n h` holds when `n` occurs contiguously inside `h`. -/
def listContainsSub (needle : List Char) : List Char → Bool
  | [] => needle.isEmpty
  | h :: hs => listStartsWith needle (h :: hs) || listContainsSub needle hs

/-- Python's `needle in hay` for strings, used by the error-signal matching
in `__create_s3vectors_bucket__` and `__create_vector_index__`. -/
def pyIn (needle hay : String) : Bool :=
  listContainsSub needle.data hay.data

/-- Module constant `EMBEDDING_MODEL` (src/S3VectorsQuery.py line 8). -/
def EMBEDDING_MODEL : String := "amazon.titan-embed-text-v2:0"

/-- Module constant `INDEX_NAME` (line 9). -/
def INDEX_NAME : String := "product-embeddings"

/-- Module constant `VECTOR_BUCKET_NAME` (line 10). -/
def VECTOR_BUCKET_NAME : String := "s3vectors-query-bucket"

/-- Embedding vectors: opaque numeric sequences, never inspected locally. -/
abbrev Vec := List Int

/-- Metadata mappings: string keys to string values, carried opaquely. -/
abbrev Metadata := List (String × String)

/-- JSON-like values appearing inside a filter dict (strings, arrays of
sub-filters, nested mappings), mirroring the literal dicts callers build. -/
inductive FVal where
  | str : String → FVal
  | arr : List FVal → FVal
  | map : List (String × FVal) → FVal

/-- A Python filter dict (the `filters` argument of `query`), e.g.
`{"$or": [...]}`: an association list.  Python truthiness of a dict is
non-emptiness of this list.  Named `PyFilter` because `Filter` is taken. -/
abbrev PyFilter := List (String × FVal)

/-- The client object: the fields set in `__init__` (lines 13-15).  The boto3
clients themselves are modelled as oracles passed to each method. -/
structure S3VectorsQuery where
  region_name : String
  bucket_name : String

/-- Field initialisation of `__init__` (lines 13-15): `bucket_name or
VECTOR_BUCKET_NAME` is Python truthiness, so `None` and `""` both fall back
to the module default. -/
def S3VectorsQuery.init_fields (bucket_name : Option String) (region_name : String) :
    S3VectorsQuery :=
  { region_name := region_name
    bucket_name :=
      match bucket_name with
      | some b => if b = "" then VECTOR_BUCKET_NAME else b
      | none => VECTOR_BUCKET_NAME }

/-- `__create_s3vectors_bucket__` (lines 21-32).  `createVectorBucket` models
`self.s3vectors.create_vector_bucket`, returning the bucket ARN on success or
`str(e)` of the raised exception.  All exceptions are caught; the method only
prints, so its result is the list of printed lines (it never raises). -/
def S3VectorsQuery.create_s3vectors_bucket (c : S3VectorsQuery)
    (createVectorBucket : String → Except String String) : List String :=
  match createVectorBucket c.bucket_name with
  | .ok arn =>
      ["Created vector bucket: " ++ c.bucket_name,
       "Bucket ARN: " ++ arn]
  | .error e =>
      if pyIn "BucketAlreadyExists" e then
        ["Vector bucket " ++ c.bucket_name ++ " already exists"]
      else
        ["Error creating bucket: " ++ e]

/-- Request fields of `create_index` (lines 37-43). -/
structure CreateIndexParams where
  vectorBucketName : String
  indexName : String
  dimension : Nat
  dataType : String
  distanceMetric : String

/-- `__create_vector_index__` (lines 34-50): builds the create-index request,
catches every exception, matches the "IndexAlreadyExists" signal, and only
prints.  Returns the printed lines together with the issued request. -/
def S3VectorsQuery.create_vector_index (c : S3VectorsQuery)
    (createIndex : CreateIndexParams → Except String String) :
    List String × CreateIndexParams :=
  let params : CreateIndexParams :=
    { vectorBucketName := c.bucket_name
      indexName := INDEX_NAME
      dimension := 1024
      dataType := "float32"
      distanceMetric := "cosine" }
  match createIndex params with
  | .ok arn =>
      (["Created vector index: " ++ INDEX_NAME,
        "Index ARN: " ++ arn], params)
  | .error e =>
      if pyIn "IndexAlreadyExists" e then
        (["Vector index " ++ INDEX_NAME ++ " already exists"], params)
      else
        (["Error creating index: " ++ e], params)

/-- `get_embedding` (lines 78-86): one `invoke_model` call with the module's
model id; the JSON body wrapping and `result['embedding']` extraction are a
bijective recoding, so the oracle `invokeModel` maps (modelId, inputText)
directly to the extracted embedding, or raises. -/
def S3VectorsQuery.get_embedding
    (invokeModel : String → String → Except String Vec) (text : String) :
    Except String Vec :=
  invokeModel EMBEDDING_MODEL text

/-- An input/updated product record (a dict in the source).  Input records
from run.py carry `id`, `text`, `metadata` and no `embedding` key; line 57
(`product['embedding'] = embedding`) sets the `embedding` key in place, which
the explicit-state model represents by the `embedding` field going from
`none` to `some`. -/
structure Product where
  id : String
  text : String
  metadata : Metadata
  embedding : Option Vec := none

/-- A storage-ready record (`vector_data`, lines 59-63); `data` models the
`{"float32": embedding}` payload. -/
structure VectorData where
  key : String
  data : Vec
  metadata : Metadata

/-- The loop of `insert_vectors` (lines 55-64): processes products in order;
returns the caller's records after the in-place mutation, the accumulated
`vectors_to_insert`, the printed lines, and `some e` when `get_embedding`
raised (the exception propagates out of `insert_vectors`; records before the
failing one stay mutated, later ones untouched).  The line-58 print renders
the product's id, embedding and metadata; as the latter two are opaque
display payloads already captured in the returned record, the print is
modelled by its id component. -/
def insertLoop (embed : String → Except String Vec) :
    List Product → List Product × List VectorData × List String × Option String
  | [] => ([], [], [], none)
  | p :: ps =>
    match embed p.text with
    | .error e => (p :: ps, [], [], some e)
    | .ok v =>
      let p2 : Product := { p with embedding := some v }
      let rest := insertLoop embed ps
      (p2 :: rest.1,
       { key := p2.id, data := v, metadata := p2.metadata } :: rest.2.1,
       ("Product: " ++ p2.id) :: rest.2.2.1,
       rest.2.2.2)

/-- Outcome of `insert_vectors`: the caller's record list after mutation, the
assembled batch, the `put_vectors` calls actually issued, the printed lines,
and the propagated exception if the loop raised. -/
structure InsertResult where
  products : List Product
  batch : List VectorData
  putCalls : List (List VectorData)
  prints : List String
  raised : Option String

/-- `insert_vectors` (lines 52-76): embeds each product, mutates it, builds
`vectors_to_insert`, then executes the bare `return` on line 65 — so control
never reaches the `put_vectors` call on lines 68-72 (lines 66-76 are
unreachable) and `putCalls` is always empty. -/
def S3VectorsQuery.insert_vectors (_c : S3VectorsQuery)
    (embed : String → Except String Vec) (products : List Product) :
    InsertResult :=
  let r := insertLoop embed products
  { products := r.1
    batch := r.2.1
    putCalls := []
    prints := r.2.2.1
    raised := r.2.2.2 }

/-- An element of the `get_vectors` response (`response['vectors']`). -/
structure StoredVector where
  key : String
  data : Option Vec
  metadata : Option Metadata

/-- `get_vectors_by_ids` (lines 88-100): one `get_vectors` call; on success
prints the count and each key, on failure catches the exception and prints
it.  The Python function has no `return` statement, so the first component —
the value handed back to the caller — is always `none` (Python `None`),
never the retrieved records. -/
def S3VectorsQuery.get_vectors_by_ids (c : S3VectorsQuery)
    (getVectors : String → String → List String → Except String (List StoredVector))
    (ids : List String) : Option (List StoredVector) × List String :=
  match getVectors c.bucket_name INDEX_NAME ids with
  | .ok vs =>
      (none,
       ("Retrieved " ++ toString vs.length ++ " vectors:")
         :: vs.map (fun v => "- " ++ v.key))
  | .error e => (none, ["Error getting vectors by ids: " ++ e])

/-- The `query_params` dict of `query` (lines 140-151).  The `filter` key is
absent from the dict unless added by line 151, modelled by an `Option` field
where `none` means the key is absent from the request. -/
structure QueryParams where
  vectorBucketName : String
  indexName : String
  queryVector : Vec
  topK : Nat
  returnMetadata : Bool
  returnDistance : Bool
  filter : Option PyFilter

/-- One element of the `query_vectors` response (`response['vectors']`):
key, metadata and distance score, carried through unmodified.  Distances are
never computed or compared locally, so the score is opaque. -/
structure QueryMatch where
  key : String
  metadata : Metadata
  distance : Int

/-- Construction of `query_params` (lines 140-151): fixed collection
identity, the query embedding, `topK`, both include-flags `True`, and the
`filter` key added only when `if filters:` is truthy — `filters` not `None`
and the dict non-empty. -/
def queryRequestParams (c : S3VectorsQuery) (query_embedding : Vec)
    (top_k : Nat) (filters : Option PyFilter) : QueryParams :=
  { vectorBucketName := c.bucket_name
    indexName := INDEX_NAME
    queryVector := query_embedding
    topK := top_k
    returnMetadata := true
    returnDistance := true
    filter :=
      match filters with
      | some f => if f.isEmpty then none else some f
      | none => none }

/-- `query` (lines 135-159).  `get_embedding` is called outside the
`try` block, so an embedding failure propagates as `.error` in the first
component with no remote query issued.  The `try` covers only
`query_vectors`: on success `response['vectors']` is returned as-is; on
failure the error is printed and `[]` returned.  The second component is the
list of `query_vectors` calls issued, the third the printed lines. -/
def S3VectorsQuery.query (c : S3VectorsQuery)
    (invokeModel : String → String → Except String Vec)
    (queryVectors : QueryParams → Except String (List QueryMatch))
    (q : String) (top_k : Nat) (filters : Option PyFilter) :
    Except String (List QueryMatch) × List QueryParams × List String :=
  match S3VectorsQuery.get_embedding invokeModel q with
  | .error e => (.error e, [], [])
  | .ok query_embedding =>
    let query_params := queryRequestParams c query_embedding top_k filters
    match queryVectors query_params with
    | .ok response => (.ok response, [query_params], [])
    | .error e =>
        (.ok [], [query_params], ["Error querying vectors: " ++ e])

/-- C1: the claim says `insert_vectors` embeds every record, assembles the
batch and submits it in exactly one `put_vectors` call.  The code violates
the submission half: the bare `return` on line 65 exits before the
`put_vectors` call on lines 68-72, so no write call is ever issued.  First
clause: for every client, oracle and input, zero `put_vectors` calls are
made.  Second clause: at the concrete one-record input the batch is fully
assembled (length 1, no exception) yet the write-call count is 0, where the
claim demands exactly 1. -/
theorem insert_vectors_issues_no_put_call :
    (∀ (c : S3VectorsQuery) (embed : String → Except String Vec)
        (ps : List Product),
        (S3VectorsQuery.insert_vectors c embed ps).putCalls = []) ∧
    ((S3VectorsQuery.insert_vectors
        { region_name := "us-east-1", bucket_name := "s3vectors-query-bucket" }
        (fun _ => .ok [1, 2])
        [{ id := "prod-001",
           text := "Wireless Bluetooth headphones with noise cancellation and 30-hour battery life",
           metadata := [("category", "electronics"), ("price_range", "high"),
                        ("brand", "TechCorp")] }]).batch.length = 1 ∧
     (S3VectorsQuery.insert_vectors
        { region_name := "us-east-1", bucket_name := "s3vectors-query-bucket" }
        (fun _ => .ok [1, 2])
        [{ id := "prod-001",
           text := "Wireless Bluetooth headphones with noise cancellation and 30-hour battery life",
           metadata := [("category", "electronics"), ("price_range", "high"),
                        ("brand", "TechCorp")] }]).putCalls.length = 0 ∧
     (S3VectorsQuery.insert_vectors
        { region_name := "us-east-1", bucket_name := "s3vectors-query-bucket" }
        (fun _ => .ok [1, 2])
        [{ id := "prod-001",
           text := "Wireless Bluetooth headphones with noise cancellation and 30-hour battery life",
           metadata := [("category", "electronics"), ("price_range", "high"),
                        ("brand", "TechCorp")] }]).raised = none) :=
  ⟨fun _ _ _ => rfl, rfl, rfl, rfl⟩

/-- C8: `insert_vectors` mutates its caller-supplied records: when every
embedding call succeeds (oracle `fun t => Except.ok (f t)`), the post-state
record list handed back to the caller is exactly the input list with each
record's `embedding` key set to its computed embedding. -/
theorem insert_vectors_mutates_caller_records
    (c : S3VectorsQuery) (f : String → Vec) (products : List Product) :
    (S3VectorsQuery.insert_vectors c (fun t => .ok (f t)) products).products
      = products.map (fun p => { p with embedding := some (f p.text) }) := by
  show (insertLoop (fun t => .ok (f t)) products).1 = _
  induction products with
  | nil => rfl
  | cons p ps ih => simp [insertLoop, ih]

/-- C2: when the remote `query_vectors` call succeeds, `query` returns the
remote-provided match sequence exactly as received — the same list, in the
same order, with no re-sorting, filtering or reshaping — after issuing
exactly one remote query call and printing nothing. -/
theorem query_returns_remote_sequence_unmodified
    (c : S3VectorsQuery) (invokeModel : String → String → Except String Vec)
    (queryVectors : QueryParams → Except String (List QueryMatch))
    (q : String) (k : Nat) (fs : Option PyFilter) (v : Vec)
    (ms : List QueryMatch)
    (hemb : invokeModel EMBEDDING_MODEL q = .ok v)
    (hqv : queryVectors (queryRequestParams c v k fs) = .ok ms) :
    S3VectorsQuery.query c invokeModel queryVectors q k fs
      = (.ok ms, [queryRequestParams c v k fs], []) := by
  simp [S3VectorsQuery.query, S3VectorsQuery.get_embedding, hemb, hqv]

/-- C2 witness: a concrete successful query returns the remote's two matches
verbatim and in order. -/
theorem query_returns_remote_sequence_unmodified_witness :
    S3VectorsQuery.query
      { region_name := "us-east-1", bucket_name := "s3vectors-query-bucket" }
      (fun _ _ => .ok [3, 1])
      (fun _ => .ok
        [{ key := "prod-004", metadata := [("category", "accessories")], distance := 1 },
         { key := "prod-001", metadata := [("category", "electronics")], distance := 2 }])
      "premium product" 5 none
      = (.ok
          [{ key := "prod-004", metadata := [("category", "accessories")], distance := 1 },
           { key := "prod-001", metadata := [("category", "electronics")], distance := 2 }],
         [queryRequestParams
            { region_name := "us-east-1", bucket_name := "s3vectors-query-bucket" }
            [3, 1] 5 none],
         []) :=
  query_returns_remote_sequence_unmodified _ _ _ _ _ _ _ _ rfl rfl

/-- C3: when the remote `query_vectors` call raises, `query` catches the
exception (it does not propagate to the caller: the first component is
`Except.ok`), returns the empty sequence, and reports the error by printing
it. -/
theorem query_remote_error_returns_empty_and_reports
    (c : S3VectorsQuery) (invokeModel : String → String → Except String Vec)
    (queryVectors : QueryParams → Except String (List QueryMatch))
    (q : String) (k : Nat) (fs : Option PyFilter) (v : Vec) (e : String)
    (hemb : invokeModel EMBEDDING_MODEL q = .ok v)
    (hqv : queryVectors (queryRequestParams c v k fs) = .error e) :
    S3VectorsQuery.query c invokeModel queryVectors q k fs
      = (.ok [], [queryRequestParams c v k fs],
         ["Error querying vectors: " ++ e]) := by
  simp [S3VectorsQuery.query, S3VectorsQuery.get_embedding, hemb, hqv]

/-- C3 witness: a concrete failing remote query yields the empty result list
and the printed error report. -/
theorem query_remote_error_returns_empty_and_reports_witness :
    S3VectorsQuery.query
      { region_name := "us-east-1", bucket_name := "s3vectors-query-bucket" }
      (fun _ _ => .ok [3, 1])
      (fun _ => .error "AccessDeniedException")
      "premium product" 5 none
      = (.ok [],
         [queryRequestParams
            { region_name := "us-east-1", bucket_name := "s3vectors-query-bucket" }
            [3, 1] 5 none],
         ["Error querying vectors: AccessDeniedException"]) :=
  query_remote_error_returns_empty_and_reports _ _ _ _ _ _ _ _ rfl rfl

/-- C4: every query request carries the collection identity (bucket name and
index name), the query embedding, `topK`, and both include-flags set; the
filter tree is included exactly when a (non-empty, i.e. Python-truthy)
filter is present and the `filter` field is absent when no filter is given;
and `query` issues precisely this request. -/
theorem query_request_construction
    (c : S3VectorsQuery) (v : Vec) (k : Nat) (f : PyFilter) (hf : f ≠ []) :
    (∀ fs : Option PyFilter,
        (queryRequestParams c v k fs).vectorBucketName = c.bucket_name ∧
        (queryRequestParams c v k fs).indexName = INDEX_NAME ∧
        (queryRequestParams c v k fs).queryVector = v ∧
        (queryRequestParams c v k fs).topK = k ∧
        (queryRequestParams c v k fs).returnMetadata = true ∧
        (queryRequestParams c v k fs).returnDistance = true) ∧
    (queryRequestParams c v k (some f)).filter = some f ∧
    (queryRequestParams c v k none).filter = none ∧
    (∀ (invokeModel : String → String → Except String Vec)
        (queryVectors : QueryParams → Except String (List QueryMatch))
        (q : String), invokeModel EMBEDDING_MODEL q = .ok v →
        ∀ fs : Option PyFilter,
          (S3VectorsQuery.query c invokeModel queryVectors q k fs).2.1
            = [queryRequestParams c v k fs]) := by
  refine ⟨fun fs => ⟨rfl, rfl, rfl, rfl, rfl, rfl⟩, ?_, rfl, ?_⟩
  · cases f with
    | nil => exact absurd rfl hf
    | cons kv kvs => rfl
  · intro invokeModel queryVectors q hemb fs
    cases hqv : queryVectors (queryRequestParams c v k fs) with
    | ok ms =>
        simp [S3VectorsQuery.query, S3VectorsQuery.get_embedding, hemb, hqv]
    | error e =>
        simp [S3VectorsQuery.query, S3VectorsQuery.get_embedding, hemb, hqv]

/-- C4 witness: at a concrete non-empty filter the `filter` field carries it,
and with no filter the field is absent. -/
theorem query_request_construction_witness :
    (queryRequestParams
        { region_name := "us-east-1", bucket_name := "s3vectors-query-bucket" }
        [2] 3 (some [("category", FVal.str "electronics")])).filter
      = some [("category", FVal.str "electronics")] ∧
    (queryRequestParams
        { region_name := "us-east-1", bucket_name := "s3vectors-query-bucket" }
        [2] 3 none).filter = none :=
  ⟨(query_request_construction
      { region_name := "us-east-1", bucket_name := "s3vectors-query-bucket" }
      [2] 3 [("category", FVal.str "electronics")]
      (List.cons_ne_nil _ _)).2.1,
   (query_request_construction
      { region_name := "us-east-1", bucket_name := "s3vectors-query-bucket" }
      [2] 3 [("category", FVal.str "electronics")]
      (List.cons_ne_nil _ _)).2.2.1⟩

/-- C9: passing an empty filter dict to `query` behaves identically to
passing no filter at all: `if filters:` is falsy for the empty dict, so the
constructed request and the whole outcome of `query` coincide — an empty
combinator dict can never reach the remote service through `query`'s
filter-inclusion logic. -/
theorem query_empty_filter_dict_same_as_none
    (c : S3VectorsQuery) (v : Vec) (k : Nat)
    (invokeModel : String → String → Except String Vec)
    (queryVectors : QueryParams → Except String (List QueryMatch))
    (q : String) :
    queryRequestParams c v k (some []) = queryRequestParams c v k none ∧
    S3VectorsQuery.query c invokeModel queryVectors q k (some [])
      = S3VectorsQuery.query c invokeModel queryVectors q k none :=
  ⟨rfl, rfl⟩

/-- C10: the empty-result-on-failure policy covers only the remote storage
call: when `get_embedding` raises (it is invoked on line 137, outside the
`try` block of lines 154-159), the exception propagates to `query`'s caller
uncaught and no `query_vectors` call is issued. -/
theorem query_embedding_error_propagates
    (c : S3VectorsQuery) (invokeModel : String → String → Except String Vec)
    (queryVectors : QueryParams → Except String (List QueryMatch))
    (q : String) (k : Nat) (fs : Option PyFilter) (e : String)
    (hemb : invokeModel EMBEDDING_MODEL q = .error e) :
    S3VectorsQuery.query c invokeModel queryVectors q k fs
      = (.error e, [], []) := by
  simp [S3VectorsQuery.query, S3VectorsQuery.get_embedding, hemb]

/-- C10 witness: a concrete embedding failure propagates as the error
outcome with an empty remote-call trace. -/
theorem query_embedding_error_propagates_witness :
    S3VectorsQuery.query
      { region_name := "us-east-1", bucket_name := "s3vectors-query-bucket" }
      (fun _ _ => .error "ThrottlingException")
      (fun _ => .ok [])
      "premium product" 3 none
      = (.error "ThrottlingException", [], []) :=
  query_embedding_error_propagates _ _ _ _ _ _ _ rfl

/-- C5: bucket and index creation are idempotent in the claimed sense: when
the remote creation call raises an error whose text carries the well-known
already-exists signal (`"BucketAlreadyExists"` / `"IndexAlreadyExists"`),
the method reports existence as success; any other creation error is
reported as an error message.  In both cases the method returns its print
list normally — the total return type `List String` (no `Except`) embodies
that no exception escapes and execution continues. -/
theorem create_bucket_and_index_already_exists_is_success
    (c : S3VectorsQuery) (e1 e2 e3 e4 : String)
    (h1 : pyIn "BucketAlreadyExists" e1 = true)
    (h2 : pyIn "BucketAlreadyExists" e2 = false)
    (h3 : pyIn "IndexAlreadyExists" e3 = true)
    (h4 : pyIn "IndexAlreadyExists" e4 = false) :
    S3VectorsQuery.create_s3vectors_bucket c (fun _ => .error e1)
      = ["Vector bucket " ++ c.bucket_name ++ " already exists"] ∧
    S3VectorsQuery.create_s3vectors_bucket c (fun _ => .error e2)
      = ["Error creating bucket: " ++ e2] ∧
    (S3VectorsQuery.create_vector_index c (fun _ => .error e3)).1
      = ["Vector index " ++ INDEX_NAME ++ " already exists"] ∧
    (S3VectorsQuery.create_vector_index c (fun _ => .error e4)).1
      = ["Error creating index: " ++ e4] := by
  refine ⟨?_, ?_, ?_, ?_⟩ <;>
    simp [S3VectorsQuery.create_s3vectors_bucket,
          S3VectorsQuery.create_vector_index, h1, h2, h3, h4]

/-- C5 witness: concrete already-exists and other-error strings, matching and
non-matching the signals, produce the claimed reports. -/
theorem create_bucket_and_index_already_exists_is_success_witness :
    S3VectorsQuery.create_s3vectors_bucket
      { region_name := "us-east-1", bucket_name := "s3vectors-query-bucket" }
      (fun _ => .error "An error occurred (BucketAlreadyExists) when calling the CreateVectorBucket operation")
      = ["Vector bucket s3vectors-query-bucket already exists"] ∧
    S3VectorsQuery.create_s3vectors_bucket
      { region_name := "us-east-1", bucket_name := "s3vectors-query-bucket" }
      (fun _ => .error "AccessDenied")
      = ["Error creating bucket: AccessDenied"] ∧
    (S3VectorsQuery.create_vector_index
      { region_name := "us-east-1", bucket_name := "s3vectors-query-bucket" }
      (fun _ => .error "An error occurred (IndexAlreadyExists) when calling the CreateIndex operation")).1
      = ["Vector index product-embeddings already exists"] ∧
    (S3VectorsQuery.create_vector_index
      { region_name := "us-east-1", bucket_name := "s3vectors-query-bucket" }
      (fun _ => .error "ValidationException")).1
      = ["Error creating index: ValidationException"] :=
  create_bucket_and_index_already_exists_is_success
    { region_name := "us-east-1", bucket_name := "s3vectors-query-bucket" }
    "An error occurred (BucketAlreadyExists) when calling the CreateVectorBucket operation"
    "AccessDenied"
    "An error occurred (IndexAlreadyExists) when calling the CreateIndex operation"
    "ValidationException"
    (by decide) (by decide) (by decide) (by decide)

/-- C6: the claim says a combinator filter (AND/OR) with zero children is
rejected locally and never forwarded to the remote service.  The code has no
builder and no validation: at the concrete filter `\x7b"$or": []\x7d` — a
non-empty dict, hence Python-truthy — `query` adds it to `query_params`
unchanged and issues the `query_vectors` call carrying the zero-children
combinator, contradicting the claim. -/
theorem query_forwards_zero_child_combinator :
    (S3VectorsQuery.query
        { region_name := "us-east-1", bucket_name := "s3vectors-query-bucket" }
        (fun _ _ => .ok [7])
        (fun _ => .ok [])
        "technology device" 5 (some [("$or", FVal.arr [])])).2.1
      = [{ vectorBucketName := "s3vectors-query-bucket"
           indexName := "product-embeddings"
           queryVector := [7]
           topK := 5
           returnMetadata := true
           returnDistance := true
           filter := some [("$or", FVal.arr [])] }] := rfl

/-- C7 counterexample: at a concrete input where the remote `get_vectors`
call succeeds with one record, `get_vectors_by_ids` returns `none` (Python
`None` — the function body has no `return` statement), not the sequence of
retrieved records; the printed lines prove the retrieval did succeed. -/
theorem get_vectors_by_ids_returns_none_not_records :
    S3VectorsQuery.get_vectors_by_ids
      { region_name := "us-east-1", bucket_name := "s3vectors-query-bucket" }
      (fun _ _ _ => .ok [{ key := "prod-001", data := some [1],
                           metadata := some [("category", "electronics")] }])
      ["prod-001"]
      = (none, ["Retrieved 1 vectors:", "- prod-001"]) := rfl

/-- C7 (amended): `get_vectors_by_ids` issues one `get_vectors` call and
always returns `None`; on success it prints the count and each retrieved
key, and on remote failure the exception is caught and the error printed —
reported as diagnostic text, never thrown past the interface boundary (the
total, `Except`-free return type) and never returned as a value. -/
theorem get_vectors_by_ids_prints_and_catches
    (c : S3VectorsQuery)
    (g1 g2 : String → String → List String → Except String (List StoredVector))
    (ids : List String) (vs : List StoredVector) (e : String)
    (h1 : g1 c.bucket_name INDEX_NAME ids = .ok vs)
    (h2 : g2 c.bucket_name INDEX_NAME ids = .error e) :
    S3VectorsQuery.get_vectors_by_ids c g1 ids
      = (none, ("Retrieved " ++ toString vs.length ++ " vectors:")
                 :: vs.map (fun v => "- " ++ v.key)) ∧
    S3VectorsQuery.get_vectors_by_ids c g2 ids
      = (none, ["Error getting vectors by ids: " ++ e]) := by
  constructor <;> simp [S3VectorsQuery.get_vectors_by_ids, h1, h2]

/-- C7 (amended) witness: concrete succeeding and failing oracles produce
the `None` result with the claimed prints. -/
theorem get_vectors_by_ids_prints_and_catches_witness :
    S3VectorsQuery.get_vectors_by_ids
      { region_name := "us-east-1", bucket_name := "s3vectors-query-bucket" }
      (fun _ _ _ => .ok [{ key := "prod-002", data := none, metadata := none }])
      ["prod-002"]
      = (none, ["Retrieved 1 vectors:", "- prod-002"]) ∧
    S3VectorsQuery.get_vectors_by_ids
      { region_name := "us-east-1", bucket_name := "s3vectors-query-bucket" }
      (fun _ _ _ => .error "NotFoundException")
      ["prod-002"]
      = (none, ["Error getting vectors by ids: NotFoundException"]) :=
  get_vectors_by_ids_prints_and_catches
    { region_name := "us-east-1", bucket_name := "s3vectors-query-bucket" }
    (fun _ _ _ => .ok [{ key := "prod-002", data := none, metadata := none }])
    (fun _ _ _ => .error "NotFoundException")
    ["prod-002"]
    [{ key := "prod-002", data := none, metadata := none }]
    "NotFoundException" rfl rfl
